import Mathlib

/-!
Verification development for the 10101 trading core: the client-side order
state machine (`mobile/native/src/trade/order/handler.rs`), the coordinator
match notifier (`coordinator/src/orderbook/async_match.rs`) and the node-side
invoice / payment pipeline (`crates/ln-dlc-node/src/node/invoice.rs`).

The Rust code is shallowly embedded: every external interaction (database
store, orderbook HTTP client, payment library, clocks) is a field of an
explicit world record returning `Except`, and each embedded function returns
its result together with the ordered list of side effects it performed, so
that ordering claims ("persist before propagating the error") are statements
about the trace. UUIDs, public keys and payment hashes are modelled as `Nat`;
prices and quantities as `Rat`; timestamps and durations as seconds (`Int`).
-/

namespace TenTenOne

/-- Client-side order failure reasons, from
`mobile/native/src/db/custom_types.rs` (`FailureReason`). -/
inductive FailureReason
  | TradeRequest
  | TradeResponse
  | NodeAccess
  | NoUsableChannel
  | ProposeDlcChannel
  | FailedToSetToFilling
  | OrderNotAcceptable
  | TimedOut
deriving DecidableEq, Repr

/-- Client-side order states (`mobile/native/src/trade/order`):
`Initial → Open → Filling → Filled | Failed`, plus `Rejected`. -/
inductive OrderState
  | Initial
  | Rejected
  | Open
  | Filling (executionPrice : Rat)
  | Failed (reason : FailureReason)
  | Filled (executionPrice : Rat)
deriving DecidableEq, Repr

/-- Position states, from `mobile/native/src/trade/position`. -/
inductive PositionState
  | Open
  | Closing
  | Rollover
deriving DecidableEq, Repr

/-- A client-side order; only the fields the handler logic reads are kept.
The UUID is modelled as a `Nat`, the creation timestamp as Unix seconds. -/
structure Order where
  id : Nat
  creationTimestamp : Int
  state : OrderState
deriving DecidableEq, Repr

/-- One side effect of the client order handler, recorded in call order.
Store writes and position writes carry a success flag: a `false` entry is an
attempted call that the store rejected (no durable change). -/
inductive Effect
  | UpdateOrder (id : Nat) (st : OrderState) (ok : Bool)
  | UiUpdate (id : Nat) (st : OrderState)
  | SetPosition (ps : PositionState) (ok : Bool)
  | InsertOrder (id : Nat) (ok : Bool)
  | PostOrder (id : Nat) (ok : Bool)
  | UpdatePositionAfterSubmit (id : Nat) (ok : Bool)
deriving DecidableEq, Repr

/-- The world a client order-handler call runs against: outcomes of the store
accessors (`mobile/native/src/db`), the position handler, the orderbook HTTP
client, and the current time (`OffsetDateTime::now_utc()`, in seconds). -/
structure ClientWorld where
  updateOrderState : Nat → OrderState → Except String Order
  insertOrder : Order → Except String Unit
  maybeGetOrderInFilling : Except String (Option Order)
  maybeGetOpenOrders : Except String (List Order)
  getPositionMatchingOrder : Order → Except String Unit
  setPositionState : PositionState → Except String Unit
  postNewOrder : Nat → Except String Unit
  updatePositionAfterOrderSubmitted : Order → Except String Unit
  parseEndpointUrl : Except String Unit
  now : Int

/-- `true` exactly on `Except.error`. -/
def isErr {α : Type} : Except String α → Bool
  | .error _ => true
  | .ok _ => false

/-- `ORDER_OUTDATED_AFTER = Duration::minutes(5)`
(`mobile/native/src/trade/order/handler.rs` line 22), in seconds. -/
def ORDER_OUTDATED_AFTER : Int := 300

/-- `update_order_state_in_db_and_ui` (handler.rs lines 156-163): write the
new state through the store; only on success publish the UI notification. -/
def updateOrderStateInDbAndUi (w : ClientWorld) (orderId : Nat)
    (state : OrderState) : Except String Order × List Effect :=
  match w.updateOrderState orderId state with
  | .error e =>
      (.error ("Failed to update order " ++ toString orderId ++ ": " ++ e),
       [.UpdateOrder orderId state false])
  | .ok order =>
      (.ok order, [.UpdateOrder orderId state true, .UiUpdate orderId state])

/-- `get_order_being_filled` (handler.rs lines 119-131). -/
def getOrderBeingFilled (w : ClientWorld) : Except String Order :=
  match w.maybeGetOrderInFilling with
  | .ok (some orderBeingFilled) => .ok orderBeingFilled
  | .ok none => .error "There is no order in state filling in the database"
  | .error e =>
      .error ("Error when loading order being filled from database: " ++ e)

/-- The body of `order_failed` once the target order id is resolved
(handler.rs lines 102-108): write the `Failed` state, then reset the
position to `Open`; each step propagates its error with `?`. -/
def orderFailedCore (w : ClientWorld) (oid : Nat) (reason : FailureReason) :
    Except String Unit × List Effect :=
  match updateOrderStateInDbAndUi w oid (.Failed reason) with
  | (.error e, tr) => (.error e, tr)
  | (.ok _, tr) =>
      match w.setPositionState .Open with
      | .error e =>
          (.error ("Could not reset position to open because of " ++ e),
           tr ++ [.SetPosition .Open false])
      | .ok _ => (.ok (), tr ++ [.SetPosition .Open true])

/-- `order_failed` (handler.rs lines 90-109): resolve the target order id
(falling back to the order in `Filling`), then run `orderFailedCore`. -/
def order_failed (w : ClientWorld) (orderId : Option Nat)
    (reason : FailureReason) : Except String Unit × List Effect :=
  match orderId with
  | none =>
      match getOrderBeingFilled w with
      | .error e => (.error e, [])
      | .ok o => orderFailedCore w o.id reason
  | some i => orderFailedCore w i reason

/-- `order_filling` (handler.rs lines 52-70): try to set the order to
`Filling`; if that store write fails, force it to
`Failed(FailedToSetToFilling)` via `order_failed` (whose own outcome is only
logged) and return the original error. -/
def order_filling (w : ClientWorld) (orderId : Nat) (executionPrice : Rat) :
    Except String Unit × List Effect :=
  match updateOrderStateInDbAndUi w orderId (.Filling executionPrice) with
  | (.ok _, tr) => (.ok (), tr)
  | (.error e, tr) =>
      let compensation := order_failed w (some orderId) .FailedToSetToFilling
      (.error ("Failed to set order " ++ toString orderId ++ " to filling: "
       ++ e),
       tr ++ compensation.2)

/-- `submit_order` (handler.rs lines 24-49): position precondition check,
local insert, post to the orderbook; on post failure roll back to `Rejected`
and release the position reservation. -/
def submit_order (w : ClientWorld) (order : Order) :
    Except String Nat × List Effect :=
  match w.parseEndpointUrl with
  | .error e => (.error e, [])
  | .ok _ =>
      match w.getPositionMatchingOrder order with
      | .error _ =>
          match order_failed w (some order.id) .OrderNotAcceptable with
          | (.error e, tr) => (.error e, tr)
          | (.ok _, tr) =>
              (.error ("Could not submit order because extending/reducing "
               ++ "the position is not part of the MVP scope"), tr)
      | .ok _ =>
          match w.insertOrder order with
          | .error e => (.error e, [.InsertOrder order.id false])
          | .ok _ =>
              match w.postNewOrder order.id with
              | .error _ =>
                  let tr1 := [Effect.InsertOrder order.id true,
                              Effect.PostOrder order.id false]
                  match updateOrderStateInDbAndUi w order.id .Rejected with
                  | (.error e, tr2) => (.error e, tr1 ++ tr2)
                  | (.ok _, tr2) =>
                      match w.setPositionState .Open with
                      | .error e =>
                          (.error ("Could not reset position to open "
                           ++ "because of " ++ e),
                           tr1 ++ tr2 ++ [.SetPosition .Open false])
                      | .ok _ =>
                          (.error "Could not post order to orderbook",
                           tr1 ++ tr2 ++ [.SetPosition .Open true])
              | .ok _ =>
                  let tr1 := [Effect.InsertOrder order.id true,
                              Effect.PostOrder order.id true]
                  match updateOrderStateInDbAndUi w order.id .Open with
                  | (.error e, tr2) => (.error e, tr1 ++ tr2)
                  | (.ok _, tr2) =>
                      match w.updatePositionAfterOrderSubmitted order with
                      | .error e =>
                          (.error e, tr1 ++ tr2
                           ++ [.UpdatePositionAfterSubmit order.id false])
                      | .ok _ =>
                          (.ok order.id, tr1 ++ tr2
                           ++ [.UpdatePositionAfterSubmit order.id true])

/-- The loop body of `check_open_orders` (handler.rs lines 143-151): each
outdated order is failed with `TimedOut`; an error from `order_failed`
aborts the sweep (`?` inside the loop). -/
def checkOutdated (w : ClientWorld) : List Order →
    Except String Unit × List Effect
  | [] => (.ok (), [])
  | o :: rest =>
      if o.creationTimestamp + ORDER_OUTDATED_AFTER < w.now then
        match order_failed w (some o.id) .TimedOut with
        | (.error e, tr) => (.error e, tr)
        | (.ok _, tr) =>
            let r := checkOutdated w rest
            (r.1, tr ++ r.2)
      else checkOutdated w rest

/-- `check_open_orders` (handler.rs lines 133-154). -/
def check_open_orders (w : ClientWorld) : Except String Unit × List Effect :=
  match w.maybeGetOpenOrders with
  | .error e =>
      (.error ("Error when loading open orders from database: " ++ e), [])
  | .ok orders => checkOutdated w orders

/-- The state a trace of effects leaves order `orderId` in: the last
successful store write for that id, if any. -/
def lastWrite (orderId : Nat) (tr : List Effect) : Option OrderState :=
  tr.foldl
    (fun acc e =>
      match e with
      | .UpdateOrder i st true => if i = orderId then some st else acc
      | _ => acc)
    none

/-- Case analysis of `orderFailedCore`: either the `Failed` store write
fails, and the call returns that error having recorded only the rejected
write; or the write succeeds, the trace is the successful write, the UI
notification, and one position-reset attempt, and the call succeeds exactly
when the reset did. -/
lemma orderFailedCore_spec (w : ClientWorld) (oid : Nat)
    (reason : FailureReason) :
    (∃ e, w.updateOrderState oid (.Failed reason) = .error e ∧
       orderFailedCore w oid reason =
         (.error ("Failed to update order " ++ toString oid ++ ": " ++ e),
          [.UpdateOrder oid (.Failed reason) false])) ∨
    (∃ o' b, w.updateOrderState oid (.Failed reason) = .ok o' ∧
       (orderFailedCore w oid reason).2 =
         [.UpdateOrder oid (.Failed reason) true,
          .UiUpdate oid (.Failed reason), .SetPosition .Open b] ∧
       ((orderFailedCore w oid reason).1 = .ok () ↔ b = true)) := by
  cases hu : w.updateOrderState oid (.Failed reason) with
  | error e =>
      left
      exact ⟨e, rfl, by simp [orderFailedCore, updateOrderStateInDbAndUi, hu]⟩
  | ok o' =>
      right
      cases hsp : w.setPositionState .Open with
      | error e2 =>
          refine ⟨o', false, rfl, ?_, ?_⟩ <;>
            simp [orderFailedCore, updateOrderStateInDbAndUi, hu, hsp]
      | ok u =>
          refine ⟨o', true, rfl, ?_, ?_⟩ <;>
            simp [orderFailedCore, updateOrderStateInDbAndUi, hu, hsp]

/-- If `orderFailedCore` succeeds, a successful position reset to `Open` is
in its trace. -/
lemma orderFailedCore_ok_mem (w : ClientWorld) (oid : Nat)
    (reason : FailureReason)
    (h : (orderFailedCore w oid reason).1 = .ok ()) :
    Effect.SetPosition .Open true ∈ (orderFailedCore w oid reason).2 := by
  rcases orderFailedCore_spec w oid reason with
    ⟨e, _, heq⟩ | ⟨o', b, _, htr, hiff⟩
  · rw [heq] at h
    simp at h
  · rw [htr, hiff.mp h]
    simp

/-- If the `Failed` store write succeeds, `orderFailedCore` attempts the
position reset (with some outcome `b`). -/
lemma orderFailedCore_reset_attempt (w : ClientWorld) (oid : Nat)
    (reason : FailureReason) (o' : Order)
    (hu : w.updateOrderState oid (.Failed reason) = .ok o') :
    ∃ b, Effect.SetPosition .Open b ∈ (orderFailedCore w oid reason).2 := by
  rcases orderFailedCore_spec w oid reason with
    ⟨e, he, _⟩ | ⟨o2, b, _, htr, _⟩
  · rw [hu] at he
    cases he
  · refine ⟨b, ?_⟩
    rw [htr]
    simp

/-- If the `Failed` store write fails, `orderFailedCore` returns an error
and its trace holds no position-reset attempt at all. -/
lemma orderFailedCore_fail_no_reset (w : ClientWorld) (oid : Nat)
    (reason : FailureReason) (e : String)
    (hu : w.updateOrderState oid (.Failed reason) = .error e) :
    isErr (orderFailedCore w oid reason).1 = true ∧
    ∀ b, Effect.SetPosition .Open b ∉ (orderFailedCore w oid reason).2 := by
  rcases orderFailedCore_spec w oid reason with
    ⟨e2, he, heq⟩ | ⟨o2, b, ho, _, _⟩
  · constructor
    · rw [heq]
      rfl
    · intro b
      rw [heq]
      simp
  · rw [hu] at ho
    cases ho

/-- The sweep on a single order: if the order is outdated, the sweep trace
is exactly the `order_failed` trace; otherwise the sweep is a no-op. -/
lemma checkOutdated_single (w : ClientWorld) (o : Order) :
    (o.creationTimestamp + ORDER_OUTDATED_AFTER < w.now →
       (checkOutdated w [o]).2 = (order_failed w (some o.id) .TimedOut).2) ∧
    (¬ o.creationTimestamp + ORDER_OUTDATED_AFTER < w.now →
       checkOutdated w [o] = (.ok (), [])) := by
  constructor
  · intro hc
    simp only [checkOutdated, if_pos hc]
    rcases hof : order_failed w (some o.id) .TimedOut with ⟨r, tr⟩
    cases r <;> simp [checkOutdated]
  · intro hc
    simp only [checkOutdated, if_neg hc]

/-! ## Coordinator match notifier (`coordinator/src/orderbook/async_match.rs`) -/

/-- `orderbook_commons::OrderReason`. -/
inductive OrderReason
  | Manual
  | Expired
deriving DecidableEq, Repr

/-- Coordinator-side order states (`orderbook_commons::OrderState`, see also
`coordinator/src/orderbook/db/orders.rs`). -/
inductive CoordOrderState
  | Open
  | Matched
  | Taken
  | Failed
deriving DecidableEq, Repr

/-- A coordinator-side order; only the fields `process_pending_match` reads
are kept. Trader public keys are modelled as `Nat`. -/
structure CoordOrder where
  id : Nat
  traderId : Nat
  orderReason : OrderReason
deriving DecidableEq, Repr

/-- A row of the coordinator `matches` table (`orderbook_commons::Matches`,
fields read by `get_filled_with_from_matches`). -/
structure MatchesRow where
  id : Nat
  orderId : Nat
  quantity : Rat
  matchTraderId : Nat
  executionPrice : Rat
deriving DecidableEq, Repr

/-- `orderbook_commons::Match`, one entry of `FilledWith.matches`. -/
structure MatchEntry where
  id : Nat
  orderId : Nat
  quantity : Rat
  pubkey : Nat
  executionPrice : Rat
deriving DecidableEq, Repr

/-- `orderbook_commons::FilledWith`: all match rows for an order plus the
oracle public key and an expiry timestamp. -/
structure FilledWith where
  orderId : Nat
  expiryTimestamp : Int
  oraclePk : String
  matchList : List MatchEntry
deriving DecidableEq, Repr

/-- The hard-coded oracle public key of
`coordinator/src/orderbook/async_match.rs` lines 98-101. -/
def oraclePK : String :=
  "16f88cf7d21e6c0f46bcbc983a4e3b19726c6c98858cc31c83551a88fde171c0"

/-- The messages the notifier can replay (`orderbook_commons::Message`
variants used in `process_pending_match`). -/
inductive Message
  | Match (filledWith : FilledWith)
  | AsyncMatch (order : CoordOrder) (filledWith : FilledWith)
deriving DecidableEq, Repr

/-- The world a `process_pending_match` call runs against: the order and
match queries of the coordinator database, the outbound trader channel, and
the already-computed expiry `coordinator_commons::calculate_next_expiry(now_utc, network)`
(an external crate, supplied as a value). -/
structure CoordWorld where
  getOrderByTraderIdAndState : Nat → CoordOrderState →
    Except String (Option CoordOrder)
  getMatchesByOrderId : Nat → Except String (List MatchesRow)
  notifierSend : Nat → Message → Except String Unit
  calcNextExpiry : Int

/-- A side effect of the match notifier: an attempted send on the outbound
trader channel, with its outcome. -/
inductive CoordEffect
  | SentTraderMessage (traderId : Nat) (message : Message) (ok : Bool)
deriving DecidableEq, Repr

/-- `get_filled_with_from_matches` (async_match.rs lines 88-121): requires a
non-empty match set, then maps every row to a `MatchEntry` verbatim. The
expiry timestamp is the world-supplied `calculate_next_expiry` value. -/
def get_filled_with_from_matches (calcNextExpiry : Int)
    (rows : List MatchesRow) : Except String FilledWith :=
  match rows with
  | [] => .error "Need at least one matches record to construct a FilledWith"
  | m :: _ =>
      .ok
        { orderId := m.orderId
          expiryTimestamp := calcNextExpiry
          oraclePk := oraclePK
          matchList := rows.map fun r =>
            { id := r.id
              orderId := r.orderId
              quantity := r.quantity
              pubkey := r.matchTraderId
              executionPrice := r.executionPrice } }

/-- Message-variant choice of `process_pending_match`
(async_match.rs lines 67-70): Manual orders replay `Match`, Expired orders
replay `AsyncMatch` with the original order. -/
def matchMessage (order : CoordOrder) (filledWith : FilledWith) : Message :=
  match order.orderReason with
  | .Manual => .Match filledWith
  | .Expired => .AsyncMatch order filledWith

/-- `process_pending_match` (async_match.rs lines 55-86): if the trader has a
`Matched` order, rebuild the `FilledWith` from its match rows and hand the
reason-dependent message to the outbound channel; a send failure is only
logged. -/
def process_pending_match (w : CoordWorld) (traderId : Nat) :
    Except String Unit × List CoordEffect :=
  match w.getOrderByTraderIdAndState traderId .Matched with
  | .error e => (.error e, [])
  | .ok none => (.ok (), [])
  | .ok (some order) =>
      match w.getMatchesByOrderId order.id with
      | .error e => (.error e, [])
      | .ok rows =>
          match get_filled_with_from_matches w.calcNextExpiry rows with
          | .error e => (.error e, [])
          | .ok filledWith =>
              let message := matchMessage order filledWith
              match w.notifierSend traderId message with
              | .error _ =>
                  (.ok (), [.SentTraderMessage traderId message false])
              | .ok _ => (.ok (), [.SentTraderMessage traderId message true])

/-! ## Node-side payment pipeline (`crates/ln-dlc-node/src/node/invoice.rs`) -/

/-- `HTLCStatus` (invoice.rs lines 360-365). -/
inductive HTLCStatus
  | Pending
  | Succeeded
  | Failed
deriving DecidableEq, Repr

/-- `PaymentFlow` of the `ln-dlc-node` crate. -/
inductive PaymentFlow
  | Inbound
  | Outbound
deriving DecidableEq, Repr

/-- `lightning::ln::channelmanager::RetryableSendFailure`. -/
inductive RetryableSendFailure
  | DuplicatePayment
  | PaymentExpired
  | RouteNotFound
deriving DecidableEq, Repr

/-- `lightning_invoice::payment::PaymentError`: either the invoice itself was
malformed, or sending failed. -/
inductive PaymentError
  | Invoice (err : String)
  | Sending (failure : RetryableSendFailure)
deriving DecidableEq, Repr

/-- `retryable_send_failure_to_string` (invoice.rs lines 377-383). -/
def retryable_send_failure_to_string : RetryableSendFailure → String
  | .DuplicatePayment => "Duplicate payment"
  | .PaymentExpired => "Payment expired"
  | .RouteNotFound => "Route not found"

/-- A BOLT11 invoice, reduced to the fields `pay_invoice` reads: the optional
fixed amount in millisatoshi, the payment hash (as `Nat`), the description
text, and its rendered text form (`format!("{invoice}")`). -/
structure Invoice where
  amountMilliSatoshis : Option Nat
  paymentHash : Nat
  description : String
  encoded : String
deriving DecidableEq, Repr

/-- `MillisatAmount(Option<u64>)` of the `ln-dlc-node` crate. -/
structure MillisatAmount where
  amount : Option Nat
deriving DecidableEq, Repr

/-- `PaymentInfo` of the `ln-dlc-node` crate; preimage and secret are
modelled as optional `Nat`s, the timestamp as Unix seconds. -/
structure PaymentInfo where
  preimage : Option Nat
  secret : Option Nat
  status : HTLCStatus
  amtMsat : MillisatAmount
  feeMsat : MillisatAmount
  flow : PaymentFlow
  timestamp : Int
  description : String
  invoice : Option String
deriving DecidableEq, Repr

/-- The world a node payment call runs against: the payment library
(`pay_invoice` / `pay_zero_value_invoice` with `Retry::Attempts(10)`,
returning a payment id), the payment store, and the clock. `getPayment`
additionally takes the poll tick so the store may change between polls of
`wait_for_payment`. -/
structure NodeWorld where
  payInvoiceLib : Invoice → Except PaymentError Nat
  payZeroValueInvoiceLib : Invoice → Nat → Except PaymentError Nat
  insertPayment : Nat → PaymentInfo → Except String Unit
  getPayment : Nat → Nat → Except String (Option PaymentInfo)
  now : Int

/-- A side effect of `pay_invoice`: a dispatch to the payment library, or an
attempted store write of a payment record (with its outcome). -/
inductive NodeEffect
  | PayAttempt (zeroValue : Bool) (amtMsat : Nat)
  | InsertedPayment (hash : Nat) (info : PaymentInfo) (ok : Bool)
deriving DecidableEq, Repr

/-- The `PaymentInfo` record `pay_invoice` builds (invoice.rs lines 281-291):
no preimage or secret yet, the dispatched amount, no fee, outbound flow, the
invoice description and its rendered text. -/
def outboundPaymentInfo (w : NodeWorld) (invoice : Invoice) (amtMsat : Nat)
    (status : HTLCStatus) : PaymentInfo :=
  { preimage := none
    secret := none
    status := status
    amtMsat := ⟨some amtMsat⟩
    feeMsat := ⟨none⟩
    flow := .Outbound
    timestamp := w.now
    description := invoice.description
    invoice := some invoice.encoded }

/-- Whether a trace contains a successful payment-record write. -/
def persistedPayment (tr : List NodeEffect) : Bool :=
  tr.any fun e =>
    match e with
    | .InsertedPayment _ _ true => true
    | _ => false

/-- `pay_invoice` (invoice.rs lines 227-299): dispatch via the library
(zero-amount invoices need an explicit amount), then record the outcome —
`Pending` on success, `Failed` on a send-level error (afterwards the send
error is still returned); an invoice-level error aborts without touching the
store. -/
def pay_invoice (w : NodeWorld) (invoice : Invoice) (amount : Option Nat) :
    Except String Unit × List NodeEffect :=
  let dispatched : Except String (Except PaymentError Nat × Nat × Bool) :=
    match invoice.amountMilliSatoshis with
    | some amt => .ok (w.payInvoiceLib invoice, amt, false)
    | none =>
        match amount with
        | none => .error "Cant pay zero amount invoice without amount"
        | some a =>
            .ok (w.payZeroValueInvoiceLib invoice (a * 1000), a * 1000, true)
  match dispatched with
  | .error e => (.error e, [])
  | .ok (result, amtMsat, zeroValue) =>
      let tr0 := [NodeEffect.PayAttempt zeroValue amtMsat]
      let outcome : Except String (HTLCStatus × Option String) :=
        match result with
        | .ok _paymentId => .ok (.Pending, none)
        | .error (.Invoice err) => .error err
        | .error (.Sending err) =>
            .ok (.Failed, some (retryable_send_failure_to_string err))
      match outcome with
      | .error e => (.error e, tr0)
      | .ok (status, errReason) =>
          let info := outboundPaymentInfo w invoice amtMsat status
          match w.insertPayment invoice.paymentHash info with
          | .error e =>
              (.error e,
               tr0 ++ [.InsertedPayment invoice.paymentHash info false])
          | .ok _ =>
              let tr1 :=
                tr0 ++ [NodeEffect.InsertedPayment invoice.paymentHash info
                          true]
              match errReason with
              | some failureReason =>
                  (.error ("Failed to send payment: " ++ failureReason
                   ++ ", " ++ invoice.encoded), tr1)
              | none => (.ok (), tr1)

/-- The outcome of `wait_for_payment`: the `assert_ne!` panic on a `Pending`
target, normal completion, or the enclosing `tokio::time::timeout` firing. -/
inductive WaitResult
  | Panicked (msg : String)
  | Completed
  | TimedOut
deriving DecidableEq, Repr

/-- A side effect of `wait_for_payment`: one 1-second sleep or one store
read. -/
inductive WaitEffect
  | Slept
  | ReadPayment (hash : Nat)
deriving DecidableEq, Repr

/-- The poll loop of `wait_for_payment` (invoice.rs lines 324-355): sleep one
second, read the store, return when the status matches; the fuel is the
whole-second budget of the enclosing timeout. -/
def waitLoop (w : NodeWorld) (expected : HTLCStatus) (hash : Nat) :
    Nat → Nat → WaitResult × List WaitEffect
  | 0, _ => (.TimedOut, [])
  | fuel + 1, tick =>
      let tr := [WaitEffect.Slept, WaitEffect.ReadPayment hash]
      match w.getPayment hash tick with
      | .ok (some info) =>
          if expected = info.status then (.Completed, tr)
          else
            let r := waitLoop w expected hash fuel (tick + 1)
            (r.1, tr ++ r.2)
      | .ok none =>
          let r := waitLoop w expected hash fuel (tick + 1)
          (r.1, tr ++ r.2)
      | .error _ =>
          let r := waitLoop w expected hash fuel (tick + 1)
          (r.1, tr ++ r.2)

/-- `wait_for_payment` (invoice.rs lines 310-357): `assert_ne!` rejects a
`Pending` target before the loop starts; otherwise poll until the expected
status is seen or the timeout (default 10 seconds) elapses. -/
def wait_for_payment (w : NodeWorld) (expected : HTLCStatus) (hash : Nat)
    (timeout : Option Nat) : WaitResult × List WaitEffect :=
  if expected = HTLCStatus.Pending then
    (.Panicked "Waiting for pending is not a valid status", [])
  else waitLoop w expected hash (timeout.getD 10) 0

/-! ## JIT channel negotiation (`prepare_onboarding_payment`) -/

/-- `LiquidityRequest` of the `ln-dlc-node` crate (the fields
`prepare_onboarding_payment` reads). -/
structure LiquidityRequest where
  traderId : Nat
  userChannelId : Nat
  liquidityOptionId : Nat
deriving DecidableEq, Repr

/-- The shadow channel record built by `Channel::new_jit_channel`
(invoice.rs lines 167-171). -/
structure JitChannel where
  userChannelId : Nat
  traderId : Nat
  liquidityOptionId : Nat
deriving DecidableEq, Repr

/-- `lightning::routing::gossip::RoutingFees`. -/
structure RoutingFees where
  baseMsat : Nat
  proportionalMillionths : Nat
deriving DecidableEq, Repr

/-- `lightning::routing::router::RouteHintHop`. -/
structure RouteHintHop where
  srcNodeId : Nat
  shortChannelId : Nat
  fees : RoutingFees
  cltvExpiryDelta : Nat
  htlcMinimumMsat : Option Nat
  htlcMaximumMsat : Option Nat
deriving DecidableEq, Repr

/-- `lightning::ln::channelmanager::MIN_CLTV_EXPIRY_DELTA` (LDK constant;
mandated to exceed the 23-block `HTLC_FAIL_BACK_BUFFER`). -/
def MIN_CLTV_EXPIRY_DELTA : Nat := 72

/-- The node state touched by `prepare_onboarding_payment`: the mutex-held
`fake_channel_payments` map from intercept scid to `LiquidityRequest`. -/
structure NodeJitState where
  fakeChannelPayments : List (Nat × LiquidityRequest)
deriving DecidableEq, Repr

/-- The world of `prepare_onboarding_payment`: the freshly allocated
intercept scid, the node public key, the live channel-config fee fields read
under the `ldk_config` lock, and the channel store. -/
structure JitWorld where
  getInterceptScid : Nat
  nodePubkey : Nat
  forwardingFeeBaseMsat : Nat
  forwardingFeeProportionalMillionths : Nat
  upsertChannel : JitChannel → Except String Unit

/-- `HashMap::insert`-style lookup on the pending-intents map: the most
recent entry for a scid wins. -/
def lookupScid (m : List (Nat × LiquidityRequest)) (scid : Nat) :
    Option LiquidityRequest :=
  (m.find? fun p => p.1 == scid).map (·.2)

/-- `prepare_onboarding_payment` (invoice.rs lines 139-186): allocate an
intercept scid, insert the `LiquidityRequest` into the pending-intents map,
build the route-hint hop carrying the intercept scid, then persist the
shadow JIT channel — failing the call (but not undoing the map insert) if
that persistence fails. -/
def prepare_onboarding_payment (w : JitWorld) (st : NodeJitState)
    (liquidityRequest : LiquidityRequest) :
    Except String RouteHintHop × NodeJitState :=
  let interceptScid := w.getInterceptScid
  let st1 : NodeJitState :=
    ⟨(interceptScid, liquidityRequest) :: st.fakeChannelPayments⟩
  let routeHintHop : RouteHintHop :=
    { srcNodeId := w.nodePubkey
      shortChannelId := interceptScid
      fees :=
        { baseMsat := w.forwardingFeeBaseMsat
          proportionalMillionths := w.forwardingFeeProportionalMillionths }
      cltvExpiryDelta := MIN_CLTV_EXPIRY_DELTA
      htlcMinimumMsat := none
      htlcMaximumMsat := none }
  let channel : JitChannel :=
    { userChannelId := liquidityRequest.userChannelId
      traderId := liquidityRequest.traderId
      liquidityOptionId := liquidityRequest.liquidityOptionId }
  match w.upsertChannel channel with
  | .error e =>
      (.error ("Failed to insert shadow JIT channel for counterparty "
       ++ toString liquidityRequest.traderId ++ ": " ++ e), st1)
  | .ok _ => (.ok routeHintHop, st1)

/-! ## Concrete worlds used as witnesses and counterexamples -/

/-- A client world in which every store and network call succeeds;
`update_order_state` echoes the requested state back. -/
def wAllOk : ClientWorld :=
  { updateOrderState := fun i st => .ok ⟨i, 0, st⟩
    insertOrder := fun _ => .ok ()
    maybeGetOrderInFilling := .ok none
    maybeGetOpenOrders := .ok []
    getPositionMatchingOrder := fun _ => .ok ()
    setPositionState := fun _ => .ok ()
    postNewOrder := fun _ => .ok ()
    updatePositionAfterOrderSubmitted := fun _ => .ok ()
    parseEndpointUrl := .ok ()
    now := 0 }

/-- A client world whose order-state writes all fail (the database is
unavailable); everything else succeeds. -/
def wFailStore : ClientWorld :=
  { wAllOk with updateOrderState := fun _ _ => .error "store unavailable" }

/-- A client world with an order currently in `Filling` but whose
order-state writes all fail. -/
def wFillingFailStore : ClientWorld :=
  { wFailStore with
    maybeGetOrderInFilling := .ok (some ⟨3, 0, .Filling 50⟩) }

/-- A client world that rejects exactly the writes setting an order to
`Filling` and accepts every other call. -/
def wFailFillingOnly : ClientWorld :=
  { wAllOk with
    updateOrderState := fun i st =>
      match st with
      | .Filling _ => .error "store unavailable"
      | _ => .ok ⟨i, 0, st⟩ }

/-- A client world in which the trader already holds a clashing position:
the position precondition check fails, everything else succeeds. -/
def wPositionClash : ClientWorld :=
  { wAllOk with
    getPositionMatchingOrder := fun _ =>
      .error "trader already has a position" }

/-- Client world for the staleness boundary: one open order created at time
0, observed at `now = 299` (4 minutes 59 seconds later). -/
def w299 : ClientWorld :=
  { wAllOk with maybeGetOpenOrders := .ok [⟨7, 0, .Open⟩], now := 299 }

/-- Client world for the staleness boundary: one open order created at time
0, observed at `now = 301` (5 minutes 1 second later). -/
def w301 : ClientWorld :=
  { wAllOk with maybeGetOpenOrders := .ok [⟨7, 0, .Open⟩], now := 301 }

/-- A fixed-amount test invoice (5000 msat, payment hash 77). -/
def invFixed : Invoice := ⟨some 5000, 77, "coffee", "lnbc1fixed"⟩

/-- A zero-amount test invoice (no fixed amount, payment hash 77). -/
def invZero : Invoice := ⟨none, 77, "coffee", "lnbc1zero"⟩

/-- A node world in which the payment library and the store both succeed. -/
def nwOk : NodeWorld :=
  { payInvoiceLib := fun _ => .ok 42
    payZeroValueInvoiceLib := fun _ _ => .ok 42
    insertPayment := fun _ _ => .ok ()
    getPayment := fun _ _ => .ok none
    now := 0 }

/-- A node world in which the payment library reports `RouteNotFound` at the
send level while the store accepts writes. -/
def nwSendFail : NodeWorld :=
  { nwOk with payInvoiceLib := fun _ => .error (.Sending .RouteNotFound) }

/-- A node world in which the payment library reports `RouteNotFound` and
the payment store additionally rejects the compensating write. -/
def nwSendFailInsertFail : NodeWorld :=
  { nwSendFail with insertPayment := fun _ _ => .error "payment store down" }

/-- A coordinator world holding one `Matched`, `Expired`-reason order for
trader 5 with a single match row of quantity 1000 (spec Scenario D). -/
def cwExpired : CoordWorld :=
  { getOrderByTraderIdAndState := fun trader st =>
      if trader = 5 ∧ st = .Matched then .ok (some ⟨11, 5, .Expired⟩)
      else .ok none
    getMatchesByOrderId := fun oid =>
      if oid = 11 then .ok [⟨21, 11, 1000, 6, (100 : Rat)⟩] else .ok []
    notifierSend := fun _ _ => .ok ()
    calcNextExpiry := 1700000000 }

/-- A JIT world whose shadow-channel persistence fails. -/
def jwUpsertFails : JitWorld :=
  { getInterceptScid := 555
    nodePubkey := 1
    forwardingFeeBaseMsat := 0
    forwardingFeeProportionalMillionths := 100
    upsertChannel := fun _ => .error "channel store down" }

/-! ## Claims -/

/-- C3 (counterexample): on a world where the payment library reports the
send-level failure `RouteNotFound` but the payment store rejects the
compensating write, `pay_invoice` returns an error to the caller although no
`PaymentInfo` record was persisted — the claimed "record exists before the
caller is told" does not hold for this call. -/
theorem C3_counterexample :
    nwSendFailInsertFail.payInvoiceLib invFixed =
      .error (.Sending .RouteNotFound) ∧
    isErr (pay_invoice nwSendFailInsertFail invFixed none).1 = true ∧
    persistedPayment (pay_invoice nwSendFailInsertFail invFixed none).2
      = false := by
  refine ⟨rfl, ?_, ?_⟩ <;> decide

/-- C3 (amended): on a send-level failure `pay_invoice` builds a
`PaymentInfo` with status `Failed` and attempts to persist it under the
invoice's payment hash; when the store accepts the write the record is
persisted and only then is the send error (carrying a human-readable
reason) returned; if the store rejects the write, the store error is
returned and no record exists. On an invoice-level (malformed invoice)
error the error is returned without any persistence attempt. Both the
fixed-amount and the zero-amount dispatch paths behave this way. -/
theorem C3_pay_invoice_error_paths :
    (∀ (w : NodeWorld) (invoice : Invoice) (amount : Option Nat) (amt : Nat)
       (f : RetryableSendFailure),
       invoice.amountMilliSatoshis = some amt →
       w.payInvoiceLib invoice = .error (.Sending f) →
       w.insertPayment invoice.paymentHash
         (outboundPaymentInfo w invoice amt .Failed) = .ok () →
       pay_invoice w invoice amount =
         (.error ("Failed to send payment: "
            ++ retryable_send_failure_to_string f ++ ", "
            ++ invoice.encoded),
          [.PayAttempt false amt,
           .InsertedPayment invoice.paymentHash
             (outboundPaymentInfo w invoice amt .Failed) true])) ∧
    (∀ (w : NodeWorld) (invoice : Invoice) (a : Nat)
       (f : RetryableSendFailure),
       invoice.amountMilliSatoshis = none →
       w.payZeroValueInvoiceLib invoice (a * 1000) = .error (.Sending f) →
       w.insertPayment invoice.paymentHash
         (outboundPaymentInfo w invoice (a * 1000) .Failed) = .ok () →
       pay_invoice w invoice (some a) =
         (.error ("Failed to send payment: "
            ++ retryable_send_failure_to_string f ++ ", "
            ++ invoice.encoded),
          [.PayAttempt true (a * 1000),
           .InsertedPayment invoice.paymentHash
             (outboundPaymentInfo w invoice (a * 1000) .Failed) true])) ∧
    (∀ (w : NodeWorld) (invoice : Invoice) (amount : Option Nat) (amt : Nat)
       (err : String),
       invoice.amountMilliSatoshis = some amt →
       w.payInvoiceLib invoice = .error (.Invoice err) →
       pay_invoice w invoice amount = (.error err, [.PayAttempt false amt])) ∧
    (∀ (w : NodeWorld) (invoice : Invoice) (a : Nat) (err : String),
       invoice.amountMilliSatoshis = none →
       w.payZeroValueInvoiceLib invoice (a * 1000) = .error (.Invoice err) →
       pay_invoice w invoice (some a) =
         (.error err, [.PayAttempt true (a * 1000)])) ∧
    (∀ (w : NodeWorld) (invoice : Invoice) (amount : Option Nat) (amt : Nat)
       (f : RetryableSendFailure) (e : String),
       invoice.amountMilliSatoshis = some amt →
       w.payInvoiceLib invoice = .error (.Sending f) →
       w.insertPayment invoice.paymentHash
         (outboundPaymentInfo w invoice amt .Failed) = .error e →
       pay_invoice w invoice amount =
         (.error e,
          [.PayAttempt false amt,
           .InsertedPayment invoice.paymentHash
             (outboundPaymentInfo w invoice amt .Failed) false])) := by
  refine ⟨?_, ?_, ?_, ?_, ?_⟩
  · intro w invoice amount amt f h1 h2 h3
    simp [pay_invoice, h1, h2, h3]
  · intro w invoice a f h1 h2 h3
    simp [pay_invoice, h1, h2, h3]
  · intro w invoice amount amt err h1 h2
    simp [pay_invoice, h1, h2]
  · intro w invoice a err h1 h2
    simp [pay_invoice, h1, h2]
  · intro w invoice amount amt f e h1 h2 h3
    simp [pay_invoice, h1, h2, h3]

/-- Witness for C3 (amended): the send-failure path with an accepting store
persists the `Failed` record and then returns the readable error; the
invoice-level path persists nothing. -/
theorem C3_witness :
    pay_invoice nwSendFail invFixed none =
      (.error ("Failed to send payment: Route not found, lnbc1fixed"),
       [.PayAttempt false 5000,
        .InsertedPayment 77
          (outboundPaymentInfo nwSendFail invFixed 5000 .Failed) true]) ∧
    pay_invoice
      { nwOk with payInvoiceLib := fun _ => .error (.Invoice "bad invoice") }
      invFixed none = (.error "bad invoice", [.PayAttempt false 5000]) :=
  ⟨C3_pay_invoice_error_paths.1 nwSendFail invFixed none 5000 .RouteNotFound
     rfl rfl rfl,
   C3_pay_invoice_error_paths.2.2.1
     { nwOk with payInvoiceLib := fun _ => .error (.Invoice "bad invoice") }
     invFixed none 5000 "bad invoice" rfl rfl⟩

/-- C8: whenever a reconnecting trader has a coordinator-side order in
state `Matched` with at least one match row, the match notifier hands the
outbound channel exactly one message, whose variant is chosen by the order
reason: `Match` with the `FilledWith` for a Manual order, `AsyncMatch` with
the original order plus the `FilledWith` for an Expired order. -/
theorem C8_match_notifier_variant (w : CoordWorld) (traderId : Nat)
    (order : CoordOrder) (rows : List MatchesRow)
    (hOrd : w.getOrderByTraderIdAndState traderId .Matched
      = .ok (some order))
    (hRows : w.getMatchesByOrderId order.id = .ok rows)
    (hNe : rows ≠ []) :
    ∃ fw b, get_filled_with_from_matches w.calcNextExpiry rows = .ok fw ∧
      (process_pending_match w traderId).2 =
        [.SentTraderMessage traderId (matchMessage order fw) b] ∧
      (order.orderReason = .Manual → matchMessage order fw = .Match fw) ∧
      (order.orderReason = .Expired →
        matchMessage order fw = .AsyncMatch order fw) := by
  match rows, hNe with
  | m :: rest, _ =>
    obtain ⟨fw, hfw⟩ : ∃ fw,
        get_filled_with_from_matches w.calcNextExpiry (m :: rest) = .ok fw :=
      ⟨_, rfl⟩
    cases hsend : w.notifierSend traderId (matchMessage order fw) with
    | error e =>
        refine ⟨fw, false, hfw, ?_, ?_, ?_⟩
        · simp [process_pending_match, hOrd, hRows, hfw, hsend]
        · intro h
          simp [matchMessage, h]
        · intro h
          simp [matchMessage, h]
    | ok u =>
        refine ⟨fw, true, hfw, ?_, ?_, ?_⟩
        · simp [process_pending_match, hOrd, hRows, hfw, hsend]
        · intro h
          simp [matchMessage, h]
        · intro h
          simp [matchMessage, h]

/-- Witness for C8 at the concrete Expired-reason order of `cwExpired`
(spec Scenario D: one match row of quantity 1000). -/
theorem C8_witness :
    ∃ fw b, get_filled_with_from_matches cwExpired.calcNextExpiry
        [⟨21, 11, 1000, 6, 100⟩] = .ok fw ∧
      (process_pending_match cwExpired 5).2 =
        [.SentTraderMessage 5 (matchMessage ⟨11, 5, .Expired⟩ fw) b] ∧
      (CoordOrder.orderReason ⟨11, 5, .Expired⟩ = .Manual →
        matchMessage ⟨11, 5, .Expired⟩ fw = .Match fw) ∧
      (CoordOrder.orderReason ⟨11, 5, .Expired⟩ = .Expired →
        matchMessage ⟨11, 5, .Expired⟩ fw =
          .AsyncMatch ⟨11, 5, .Expired⟩ fw) :=
  C8_match_notifier_variant cwExpired 5 ⟨11, 5, .Expired⟩
    [⟨21, 11, 1000, 6, 100⟩] rfl rfl (List.cons_ne_nil _ _)

/-- C9: for every call to `wait_for_payment` with
`expected_status = Pending`, the call is rejected immediately — before any
store read or sleep — and no state is mutated: the result is the
`assert_ne` rejection and the effect trace is empty. -/
theorem C9_wait_for_payment_rejects_pending (w : NodeWorld) (hash : Nat)
    (timeout : Option Nat) :
    wait_for_payment w .Pending hash timeout =
      (.Panicked "Waiting for pending is not a valid status", []) := rfl

/-- C7: for every invoice that carries no fixed amount, calling
`pay_invoice` with `amount = None` fails with the validation error, and the
empty effect trace shows that no payment was dispatched and no `PaymentInfo`
record was written. -/
theorem C7_zero_amount_invoice_requires_amount (w : NodeWorld)
    (invoice : Invoice) (h : invoice.amountMilliSatoshis = none) :
    pay_invoice w invoice none =
      (.error "Cant pay zero amount invoice without amount", []) := by
  simp only [pay_invoice, h]

/-- Witness for C7 at the concrete zero-amount invoice `invZero`. -/
theorem C7_witness :
    pay_invoice nwOk invZero none =
      (.error "Cant pay zero amount invoice without amount", []) :=
  C7_zero_amount_invoice_requires_amount nwOk invZero rfl

/-- C10: in `prepare_onboarding_payment` the `LiquidityRequest` is inserted
into the pending-intents map before the shadow JIT channel is persisted;
if `upsert_channel` fails the call returns an error, yet the map entry under
the freshly allocated intercept scid remains (no rollback). -/
theorem C10_onboarding_insert_not_rolled_back (w : JitWorld)
    (st : NodeJitState) (lr : LiquidityRequest) (e : String)
    (h : w.upsertChannel ⟨lr.userChannelId, lr.traderId, lr.liquidityOptionId⟩
       = .error e) :
    isErr (prepare_onboarding_payment w st lr).1 = true ∧
    lookupScid (prepare_onboarding_payment w st lr).2.fakeChannelPayments
      w.getInterceptScid = some lr := by
  simp only [prepare_onboarding_payment, h]
  exact ⟨rfl, by simp [lookupScid]⟩

/-- Witness for C10 at a concrete failing channel store. -/
theorem C10_witness :
    isErr (prepare_onboarding_payment jwUpsertFails ⟨[]⟩ ⟨10, 20, 30⟩).1
      = true ∧
    lookupScid
      (prepare_onboarding_payment jwUpsertFails ⟨[]⟩
        ⟨10, 20, 30⟩).2.fakeChannelPayments
      jwUpsertFails.getInterceptScid = some ⟨10, 20, 30⟩ :=
  C10_onboarding_insert_not_rolled_back jwUpsertFails ⟨[]⟩ ⟨10, 20, 30⟩
    "channel store down" rfl

/-- C5: `get_filled_with_from_matches` fails (with no partial result) on
every empty match list, and on every non-empty list succeeds with a
`FilledWith` whose match list has exactly one entry per input row,
preserving each row's id, order id, quantity, counterparty key and
execution price. -/
theorem C5_filled_with_from_matches (calcNextExpiry : Int)
    (rows : List MatchesRow) :
    (rows = [] →
       isErr (get_filled_with_from_matches calcNextExpiry rows) = true) ∧
    (rows ≠ [] →
       ∃ fw, get_filled_with_from_matches calcNextExpiry rows = .ok fw ∧
         fw.matchList = rows.map (fun r =>
           ⟨r.id, r.orderId, r.quantity, r.matchTraderId,
            r.executionPrice⟩) ∧
         fw.matchList.length = rows.length) := by
  constructor
  · intro h
    subst h
    rfl
  · intro h
    match rows with
    | [] => exact absurd rfl h
    | m :: rest =>
        refine ⟨_, rfl, rfl, ?_⟩
        simp [get_filled_with_from_matches]

/-- C1 (counterexample): a single call to `order_failed` on a world whose
order-state write fails propagates an error to the caller although the
trader's position was never reset to `Open` — the claimed "reset before any
error is propagated" does not hold. -/
theorem C1_counterexample :
    isErr (order_failed wFailStore (some 1) .TimedOut).1 = true ∧
    Effect.SetPosition .Open true ∉ (order_failed wFailStore (some 1)
      .TimedOut).2 ∧
    Effect.SetPosition .Open false ∉ (order_failed wFailStore (some 1)
      .TimedOut).2 := by
  decide

/-- C1 (amended): `order_failed` attempts the compensating reset of the
position to `Open`, regardless of the failure reason, exactly when the
target order is resolved and the store write recording `Failed` succeeds,
and it returns `Ok` only if that reset succeeded; when resolving the order
or persisting the `Failed` state fails, the error is propagated to the
caller without any position reset. -/
theorem C1_order_failed_position_reset :
    (∀ (w : ClientWorld) (orderId : Option Nat) (reason : FailureReason),
       (order_failed w orderId reason).1 = .ok () →
       Effect.SetPosition .Open true ∈ (order_failed w orderId reason).2) ∧
    (∀ (w : ClientWorld) (oid : Nat) (reason : FailureReason) (o' : Order),
       w.updateOrderState oid (.Failed reason) = .ok o' →
       ∃ b, Effect.SetPosition .Open b
         ∈ (order_failed w (some oid) reason).2) ∧
    (∀ (w : ClientWorld) (oid : Nat) (reason : FailureReason) (e : String),
       w.updateOrderState oid (.Failed reason) = .error e →
       isErr (order_failed w (some oid) reason).1 = true ∧
       ∀ b, Effect.SetPosition .Open b
         ∉ (order_failed w (some oid) reason).2) ∧
    (∀ (w : ClientWorld) (reason : FailureReason) (e : String),
       getOrderBeingFilled w = .error e →
       order_failed w none reason = (.error e, [])) ∧
    (∀ (w : ClientWorld) (reason : FailureReason) (o o' : Order),
       getOrderBeingFilled w = .ok o →
       w.updateOrderState o.id (.Failed reason) = .ok o' →
       ∃ b, Effect.SetPosition .Open b ∈ (order_failed w none reason).2) ∧
    (∀ (w : ClientWorld) (reason : FailureReason) (o : Order) (e : String),
       getOrderBeingFilled w = .ok o →
       w.updateOrderState o.id (.Failed reason) = .error e →
       isErr (order_failed w none reason).1 = true ∧
       ∀ b, Effect.SetPosition .Open b ∉ (order_failed w none reason).2) := by
  refine ⟨?_, ?_, ?_, ?_, ?_, ?_⟩
  · intro w orderId reason h
    match orderId with
    | some i =>
        exact orderFailedCore_ok_mem w i reason h
    | none =>
        cases hg : getOrderBeingFilled w with
        | error e =>
            rw [order_failed] at h ⊢
            rw [hg] at h
            simp at h
        | ok o =>
            rw [order_failed] at h ⊢
            rw [hg] at h ⊢
            exact orderFailedCore_ok_mem w o.id reason h
  · intro w oid reason o' hu
    exact orderFailedCore_reset_attempt w oid reason o' hu
  · intro w oid reason e hu
    exact orderFailedCore_fail_no_reset w oid reason e hu
  · intro w reason e hg
    simp only [order_failed, hg]
  · intro w reason o o' hg hu
    have hres : order_failed w none reason = orderFailedCore w o.id reason :=
      by simp only [order_failed, hg]
    rw [hres]
    exact orderFailedCore_reset_attempt w o.id reason o' hu
  · intro w reason o e hg hu
    have hres : order_failed w none reason = orderFailedCore w o.id reason :=
      by simp only [order_failed, hg]
    rw [hres]
    exact orderFailedCore_fail_no_reset w o.id reason e hu

/-- Witness for C1 (amended): on an all-succeeding world the successful
reset is in the trace; on a failing store an explicit-id call errors with
no reset; with no id and no order in `Filling` the resolution error is
returned with an empty trace; with no id, an order in `Filling` and a
failing store the call errors as well. -/
theorem C1_witness :
    Effect.SetPosition .Open true ∈ (order_failed wAllOk (some 1)
      .TimedOut).2 ∧
    isErr (order_failed wFailStore (some 2) .OrderNotAcceptable).1 = true ∧
    order_failed wAllOk none .TimedOut =
      (.error "There is no order in state filling in the database", []) ∧
    isErr (order_failed wFillingFailStore none .TradeResponse).1 = true :=
  ⟨C1_order_failed_position_reset.1 wAllOk (some 1) .TimedOut rfl,
   (C1_order_failed_position_reset.2.2.1 wFailStore 2 .OrderNotAcceptable
     "store unavailable" rfl).1,
   C1_order_failed_position_reset.2.2.2.1 wAllOk .TimedOut
     "There is no order in state filling in the database" rfl,
   (C1_order_failed_position_reset.2.2.2.2.2 wFillingFailStore
     .TradeResponse ⟨3, 0, .Filling 50⟩ "store unavailable" rfl rfl).1⟩

/-- C2 (counterexample): `order_filling` on a world whose store rejects
every write fails to set the order to `Filling`, yet the compensating write
also fails, so the order is left in its previous state (no successful write
at all) rather than in `Failed(FailedToSetToFilling)` as claimed; an error
is still returned. -/
theorem C2_counterexample :
    isErr (wFailStore.updateOrderState 1 (.Filling 100)) = true ∧
    isErr (order_filling wFailStore 1 100).1 = true ∧
    lastWrite 1 (order_filling wFailStore 1 100).2 = none ∧
    lastWrite 1 (order_filling wFailStore 1 100).2
      ≠ some (.Failed .FailedToSetToFilling) := by
  decide

/-- C2 (amended): whenever the store write setting the order to `Filling`
fails, `order_filling` returns an error, the order is never left in
`Filling` by this call, and the compensating write forcing
`Failed(FailedToSetToFilling)` is issued — so the resulting state is
`Failed(FailedToSetToFilling)` whenever the store accepts that write. -/
theorem C2_order_filling_fail_closed (w : ClientWorld) (oid : Nat) (p : Rat)
    (e : String) (h : w.updateOrderState oid (.Filling p) = .error e) :
    isErr (order_filling w oid p).1 = true ∧
    (∀ q, lastWrite oid (order_filling w oid p).2 ≠ some (.Filling q)) ∧
    (∀ o', w.updateOrderState oid (.Failed .FailedToSetToFilling) = .ok o' →
       lastWrite oid (order_filling w oid p).2 =
         some (.Failed .FailedToSetToFilling)) := by
  have hfill : order_filling w oid p =
      (.error ("Failed to set order " ++ toString oid ++ " to filling: "
       ++ ("Failed to update order " ++ toString oid ++ ": " ++ e)),
       [Effect.UpdateOrder oid (.Filling p) false]
         ++ (orderFailedCore w oid .FailedToSetToFilling).2) := by
    simp [order_filling, updateOrderStateInDbAndUi, h, order_failed]
  rcases orderFailedCore_spec w oid .FailedToSetToFilling with
    ⟨e2, he, heq⟩ | ⟨o2, b, ho, htr, _⟩
  · refine ⟨by rw [hfill]; rfl, ?_, ?_⟩
    · intro q
      rw [hfill, heq]
      simp [lastWrite]
    · intro o' ho
      rw [he] at ho
      cases ho
  · refine ⟨by rw [hfill]; rfl, ?_, ?_⟩
    · intro q
      rw [hfill, htr]
      simp [lastWrite]
    · intro o' _
      rw [hfill, htr]
      simp [lastWrite]

/-- Witness for C2 (amended) on a world that rejects exactly the `Filling`
write: the order ends in `Failed(FailedToSetToFilling)`. -/
theorem C2_witness :
    isErr (order_filling wFailFillingOnly 1 100).1 = true ∧
    lastWrite 1 (order_filling wFailFillingOnly 1 100).2 =
      some (.Failed .FailedToSetToFilling) :=
  ⟨(C2_order_filling_fail_closed wFailFillingOnly 1 100 "store unavailable"
      rfl).1,
   (C2_order_filling_fail_closed wFailFillingOnly 1 100 "store unavailable"
      rfl).2.2 ⟨1, 0, .Failed .FailedToSetToFilling⟩ rfl⟩

/-- C4: for an order with creation timestamp `T` returned by the open-orders
query (given the store accepts the `Failed(TimedOut)` write),
`check_open_orders` leaves the order untouched at `T + 4m59s` (empty trace)
and forces it to `Failed(TimedOut)` at `T + 5m1s`; in general the timeout
write occurs exactly when `creation_timestamp + 5 minutes < now`. -/
theorem C4_staleness_boundary (w : ClientWorld) (o : Order) (o' : Order)
    (hOrders : w.maybeGetOpenOrders = .ok [o])
    (hUpd : w.updateOrderState o.id (.Failed .TimedOut) = .ok o') :
    (w.now = o.creationTimestamp + 299 →
       check_open_orders w = (.ok (), [])) ∧
    (w.now = o.creationTimestamp + 301 →
       lastWrite o.id (check_open_orders w).2 = some (.Failed .TimedOut)) ∧
    (Effect.UpdateOrder o.id (.Failed .TimedOut) true
       ∈ (check_open_orders w).2
     ↔ o.creationTimestamp + ORDER_OUTDATED_AFTER < w.now) := by
  have hrun : check_open_orders w = checkOutdated w [o] := by
    simp only [check_open_orders, hOrders]
  have hcore : (order_failed w (some o.id) .TimedOut).2 =
      (orderFailedCore w o.id .TimedOut).2 := rfl
  rcases orderFailedCore_spec w o.id .TimedOut with
    ⟨e, he, _⟩ | ⟨o2, b, _, htr, _⟩
  · rw [hUpd] at he
    cases he
  · refine ⟨?_, ?_, ?_⟩
    · intro h299
      rw [hrun]
      refine (checkOutdated_single w o).2 ?_
      rw [h299]
      simp only [ORDER_OUTDATED_AFTER]
      omega
    · intro h301
      have hc : o.creationTimestamp + ORDER_OUTDATED_AFTER < w.now := by
        rw [h301]
        simp only [ORDER_OUTDATED_AFTER]
        omega
      rw [hrun, (checkOutdated_single w o).1 hc, hcore, htr]
      simp [lastWrite]
    · constructor
      · intro hmem
        by_contra hc
        rw [hrun, (checkOutdated_single w o).2 hc] at hmem
        simp at hmem
      · intro hc
        rw [hrun, (checkOutdated_single w o).1 hc, hcore, htr]
        simp

/-- Witness for C4 at a concrete order created at time 0: untouched at
`now = 299`, timed out at `now = 301`. -/
theorem C4_witness :
    check_open_orders w299 = (.ok (), []) ∧
    lastWrite 7 (check_open_orders w301).2 = some (.Failed .TimedOut) :=
  ⟨(C4_staleness_boundary w299 ⟨7, 0, .Open⟩ ⟨7, 0, .Failed .TimedOut⟩
      rfl rfl).1 rfl,
   (C4_staleness_boundary w301 ⟨7, 0, .Open⟩ ⟨7, 0, .Failed .TimedOut⟩
      rfl rfl).2.1 rfl⟩

/-- C6: when the trader already holds a position that the new order would
illegally extend or reduce (the position precondition check fails),
`submit_order` returns an error, the order is marked
`Failed(OrderNotAcceptable)` locally (given the store accepts that write),
and nothing is ever posted to the coordinator orderbook. -/
theorem C6_submit_order_not_acceptable (w : ClientWorld) (order : Order)
    (e : String) (o' : Order)
    (hUrl : w.parseEndpointUrl = .ok ())
    (hPos : w.getPositionMatchingOrder order = .error e)
    (hUpd : w.updateOrderState order.id (.Failed .OrderNotAcceptable)
      = .ok o') :
    isErr (submit_order w order).1 = true ∧
    Effect.UpdateOrder order.id (.Failed .OrderNotAcceptable) true
      ∈ (submit_order w order).2 ∧
    (∀ b, Effect.PostOrder order.id b ∉ (submit_order w order).2) := by
  have hshape : isErr (submit_order w order).1 = true ∧
      (submit_order w order).2 =
        (orderFailedCore w order.id .OrderNotAcceptable).2 := by
    simp only [submit_order, hUrl, hPos, order_failed]
    rcases hof : orderFailedCore w order.id .OrderNotAcceptable with ⟨r, tr⟩
    cases r <;> simp [isErr]
  rcases orderFailedCore_spec w order.id .OrderNotAcceptable with
    ⟨e2, he, _⟩ | ⟨o2, b, _, htr, _⟩
  · rw [hUpd] at he
    cases he
  · refine ⟨hshape.1, ?_, ?_⟩
    · rw [hshape.2, htr]
      simp
    · intro b2
      rw [hshape.2, htr]
      simp

/-- Witness for C6 at a concrete rejected order. -/
theorem C6_witness :
    isErr (submit_order wPositionClash ⟨9, 0, .Initial⟩).1 = true ∧
    Effect.UpdateOrder 9 (.Failed .OrderNotAcceptable) true
      ∈ (submit_order wPositionClash ⟨9, 0, .Initial⟩).2 ∧
    (∀ b, Effect.PostOrder 9 b
      ∉ (submit_order wPositionClash ⟨9, 0, .Initial⟩).2) :=
  C6_submit_order_not_acceptable wPositionClash ⟨9, 0, .Initial⟩
    "trader already has a position" ⟨9, 0, .Failed .OrderNotAcceptable⟩
    rfl rfl rfl

/-- Witness for C5: the empty list fails, a one-row list is mapped
verbatim. -/
theorem C5_witness :
    isErr (get_filled_with_from_matches 0 ([] : List MatchesRow)) = true ∧
    ∃ fw, get_filled_with_from_matches 0 [(⟨21, 11, 1000, 6, 100⟩ :
        MatchesRow)] = .ok fw ∧
      fw.matchList = [⟨21, 11, 1000, 6, 100⟩] ∧
      fw.matchList.length = 1 :=
  ⟨(C5_filled_with_from_matches 0 []).1 rfl,
   (C5_filled_with_from_matches 0 [⟨21, 11, 1000, 6, 100⟩]).2
     (List.cons_ne_nil _ _)⟩

end TenTenOne
